import Mathlib

/-!
Verification of the LUPPA corruption-network analyzer core
(`src/config.py`, `src/main.py`, `src/app.py`).

The embedding models the in-memory entity-relationship graph
(`networkx.Graph`: insertion-ordered dict of node attributes, dict-of-dicts
adjacency), the ingestion routine `CorruptionNetworkAnalyzer._update_graph`
(both the `main.py` variant, which consults `config.get_entity_config` /
`config.get_relationship_config`, and the `app.py` variant, which does not),
and the detector `CorruptionNetworkAnalyzer.detect_suspicious_patterns`
(cycle-basis collusion detection plus degree-concentration detection).

Python dicts are modelled as insertion-ordered association lists where
updating an existing key overwrites its value in place and a new key is
appended at the end.  Python exceptions are modelled with `Except` /
explicit error results; numeric computation is modelled over `ℚ`
(the square root in the threshold comparison is eliminated by an exact
algebraic rearrangement, proved equivalent to the `Real.sqrt` formula in
`degreeExceeds_iff_sqrt` below).
-/

/-- A Python scalar attribute value: either a string or a number. -/
inductive PyVal where
  | s (v : String)
  | n (v : ℚ)
deriving DecidableEq, Repr

/-- A Python exception relevant to the modelled code paths.
`keyError k` models `KeyError(k)` raised by a failed `dict[k]` lookup. -/
inductive PyErr where
  | keyError (k : String)
deriving DecidableEq, Repr

/-- Python-dict lookup `d.get(k)` on an insertion-ordered association list:
the first binding of the key, if any. -/
def dictGet {V : Type} (d : List (String × V)) (key : String) : Option V :=
  match d with
  | [] => none
  | (k, v) :: rest => if k = key then some v else dictGet rest key

/-- Python-dict subscript `d[k]`: raises `KeyError(k)` when the key is absent. -/
def dictGetItem {V : Type} (d : List (String × V)) (key : String) :
    Except PyErr V :=
  match dictGet d key with
  | some v => .ok v
  | none => .error (.keyError key)

/-- Python-dict assignment `d[k] = v`: overwrite in place when the key exists,
append at the end otherwise (insertion-order semantics of CPython dicts). -/
def dictSet {V : Type} (d : List (String × V)) (key : String) (val : V) :
    List (String × V) :=
  match d with
  | [] => [(key, val)]
  | (k, v) :: rest =>
      if k = key then (k, val) :: rest else (k, v) :: dictSet rest key val

/-- Python `d.update(d2)`: assign every binding of `d2` into `d` in order. -/
def dictUpdate {V : Type} (d d2 : List (String × V)) : List (String × V) :=
  d2.foldl (fun acc kv => dictSet acc kv.1 kv.2) d

/-- An attribute bag (`**attributes` keyword dict) on a node or edge. -/
abbrev AttrMap := List (String × PyVal)

/-- The `networkx.Graph` state used by the analyzer: `nodeAttrs` models
`G._node` (node → attribute dict, insertion-ordered) and `adj` models
`G._adj` (node → neighbour → edge-attribute dict, insertion-ordered). -/
structure Graph where
  nodeAttrs : List (String × AttrMap)
  adj : List (String × List (String × AttrMap))
deriving DecidableEq, Repr

/-- `nx.Graph()`: the empty graph. -/
def Graph.empty : Graph := ⟨[], []⟩

/-- `G.add_node(n, **attrs)`: a new node is appended with its attribute dict;
an existing node has its attribute dict updated (dict-merge, not replacement). -/
def Graph.addNode (g : Graph) (n : String) (attrs : AttrMap) : Graph :=
  match dictGet g.nodeAttrs n with
  | none => ⟨g.nodeAttrs ++ [(n, attrs)], g.adj ++ [(n, [])]⟩
  | some old => ⟨dictSet g.nodeAttrs n (dictUpdate old attrs), g.adj⟩

/-- `G.add_edge(u, v, **attrs)`: missing endpoints are silently created with
empty attribute dicts; the edge-attribute dict is `G._adj[u].get(v, {})`
updated with `attrs`, then stored symmetrically at `u → v` and `v → u`
(an `nx.Graph` is simple: re-adding an existing edge merges attributes,
it never creates a parallel edge). -/
def Graph.addEdge (g : Graph) (u v : String) (attrs : AttrMap) : Graph :=
  let g1 := if (dictGet g.nodeAttrs u).isSome then g else
    ⟨g.nodeAttrs ++ [(u, [])], g.adj ++ [(u, [])]⟩
  let g2 := if (dictGet g1.nodeAttrs v).isSome then g1 else
    ⟨g1.nodeAttrs ++ [(v, [])], g1.adj ++ [(v, [])]⟩
  let datadict :=
    dictUpdate ((dictGet ((dictGet g2.adj u).getD []) v).getD []) attrs
  let adj1 := dictSet g2.adj u (dictSet ((dictGet g2.adj u).getD []) v datadict)
  let adj2 := dictSet adj1 v (dictSet ((dictGet adj1 v).getD []) u datadict)
  ⟨g2.nodeAttrs, adj2⟩

/-- `G.degree(n)` for an `nx.Graph`: number of neighbours, with a self-loop
counted twice (`len(nbrs) + (n in nbrs)`). -/
def Graph.degree (g : Graph) (n : String) : Nat :=
  let nbrs := (dictGet g.adj n).getD []
  nbrs.length + (if (dictGet nbrs n).isSome then 1 else 0)

/-- The node list of the graph in insertion order (`list(G)`). -/
def Graph.nodeList (g : Graph) : List String :=
  g.nodeAttrs.map Prod.fst

/-- An extracted entity fact (`{"id", "name", "type", "attributes"}`). -/
structure Entity where
  id : String
  name : String
  type : String
  attributes : AttrMap
deriving DecidableEq, Repr

/-- An extracted relationship fact
(`{"source", "target", "type", "attributes"}`). -/
structure Relationship where
  source : String
  target : String
  type : String
  attributes : AttrMap
deriving DecidableEq, Repr

/-- One extraction result (`analysis_result`): the batch passed to
`_update_graph`. -/
structure Batch where
  entities : List Entity
  relationships : List Relationship
deriving DecidableEq, Repr

/-- Display configuration of an entity type (`config.ENTITY_TYPES` values). -/
structure EntityConfig where
  name : String
  color : String
  icon : String
deriving DecidableEq, Repr

/-- Configuration of a relationship type (`config.RELATIONSHIP_TYPES`
values). -/
structure RelationshipConfig where
  name : String
  risk_factor : ℚ
  color : String
deriving DecidableEq, Repr

/-- `config.ENTITY_TYPES`: the recognized entity-type vocabulary.  Note that
the dict holds exactly the four keys below — there is no `"otro"` entry. -/
def ENTITY_TYPES : List (String × EntityConfig) :=
  [("funcionario", ⟨"Funcionario Público", "#FF6B6B", "user"⟩),
   ("empresa", ⟨"Empresa Contratista", "#4ECDC4", "building"⟩),
   ("beneficiario", ⟨"Beneficiario", "#45B7D1", "user-check"⟩),
   ("ppe", ⟨"Persona Políticamente Expuesta", "#96CEB4", "user-star"⟩)]

/-- `config.RELATIONSHIP_TYPES`: the recognized relationship-type vocabulary.
As with `ENTITY_TYPES`, there is no `"otro"` entry. -/
def RELATIONSHIP_TYPES : List (String × RelationshipConfig) :=
  [("familiar", ⟨"Relación Familiar", 8/10, "#FF0000"⟩),
   ("comercial", ⟨"Relación Comercial", 6/10, "#00FF00"⟩),
   ("politica", ⟨"Relación Política", 7/10, "#0000FF"⟩),
   ("beneficio", ⟨"Beneficio Recibido", 5/10, "#FFFF00"⟩)]

/-- `RISK_THRESHOLDS["min_cycle_length"]` (value 3). -/
def min_cycle_length : Nat := 3

/-- `RISK_THRESHOLDS["max_degree_std"]` (value 2.0). -/
def max_degree_std : ℚ := 2

/-- `Config.get_entity_config(t)`, i.e.
`ENTITY_TYPES.get(t, ENTITY_TYPES["otro"])`.  Python evaluates the default
argument `ENTITY_TYPES["otro"]` before calling `.get`; since `ENTITY_TYPES`
has no key `"otro"`, that subscript raises `KeyError('otro')` on every call,
whatever `t` is. -/
def get_entity_config (t : String) : Except PyErr EntityConfig :=
  match dictGetItem ENTITY_TYPES "otro" with
  | .error e => .error e
  | .ok dflt => .ok ((dictGet ENTITY_TYPES t).getD dflt)

/-- `Config.get_relationship_config(t)`, i.e.
`RELATIONSHIP_TYPES.get(t, RELATIONSHIP_TYPES["otro"])`; like
`get_entity_config`, the eagerly evaluated default raises
`KeyError('otro')` on every call. -/
def get_relationship_config (t : String) : Except PyErr RelationshipConfig :=
  match dictGetItem RELATIONSHIP_TYPES "otro" with
  | .error e => .error e
  | .ok dflt => .ok ((dictGet RELATIONSHIP_TYPES t).getD dflt)

/-- The mutable state of a `CorruptionNetworkAnalyzer`:
`self.graph`, `self.entities`, `self.relationships`. -/
structure AnalyzerState where
  graph : Graph
  entities : List (String × Entity)
  relationships : List Relationship
deriving DecidableEq, Repr

/-- `CorruptionNetworkAnalyzer.__init__`: empty graph, empty entity dict,
empty relationship list. -/
def initialState : AnalyzerState := ⟨Graph.empty, [], []⟩

/-- The keyword dict passed to `add_node` in `main.py`:
`**attributes, node_type=…, name=…, color=…, icon=…`
(attribute keys are assumed distinct from the four reserved keywords;
a duplicate keyword argument would be a `TypeError` in Python). -/
def mainNodeAttrs (e : Entity) (cfg : EntityConfig) : AttrMap :=
  e.attributes ++
    [("node_type", .s e.type), ("name", .s e.name),
     ("color", .s cfg.color), ("icon", .s cfg.icon)]

/-- The keyword dict passed to `add_edge` in `main.py`:
`**attributes, relationship_type=…, color=…, risk_factor=…`. -/
def mainEdgeAttrs (r : Relationship) (cfg : RelationshipConfig) : AttrMap :=
  r.attributes ++
    [("relationship_type", .s r.type), ("color", .s cfg.color),
     ("risk_factor", .n cfg.risk_factor)]

/-- The entity loop of `main.py`'s `_update_graph`.  The analyzer state is
mutated in place, so on an exception the already-processed prefix of the
batch stays applied: the result carries the state as it is when the loop
ends or the exception fires. -/
def applyEntitiesMain (st : AnalyzerState) :
    List Entity → AnalyzerState × Option PyErr
  | [] => (st, none)
  | e :: rest =>
    match get_entity_config e.type with
    | .error err => (st, some err)
    | .ok cfg =>
        applyEntitiesMain
          { st with
            graph := st.graph.addNode e.id (mainNodeAttrs e cfg),
            entities := dictSet st.entities e.id e }
          rest

/-- The relationship loop of `main.py`'s `_update_graph`. -/
def applyRelationshipsMain (st : AnalyzerState) :
    List Relationship → AnalyzerState × Option PyErr
  | [] => (st, none)
  | r :: rest =>
    match get_relationship_config r.type with
    | .error err => (st, some err)
    | .ok cfg =>
        applyRelationshipsMain
          { st with
            graph := st.graph.addEdge r.source r.target (mainEdgeAttrs r cfg),
            relationships := st.relationships ++ [r] }
          rest

/-- `main.py`'s `CorruptionNetworkAnalyzer._update_graph`: apply all entity
facts, then all relationship facts.  The surrounding `try` block logs and
re-raises, so an exception propagates to the caller while the in-place
mutations made before it persist; the returned pair is (state after the
call, exception raised if any). -/
def updateGraph (st : AnalyzerState) (batch : Batch) :
    AnalyzerState × Option PyErr :=
  match applyEntitiesMain st batch.entities with
  | (st1, some err) => (st1, some err)
  | (st1, none) => applyRelationshipsMain st1 batch.relationships

/-- The keyword dict passed to `add_node` in `app.py`:
`**attributes, node_type=…, name=…`. -/
def appNodeAttrs (e : Entity) : AttrMap :=
  e.attributes ++ [("node_type", .s e.type), ("name", .s e.name)]

/-- The keyword dict passed to `add_edge` in `app.py`:
`**attributes, relationship_type=…`. -/
def appEdgeAttrs (r : Relationship) : AttrMap :=
  r.attributes ++ [("relationship_type", .s r.type)]

/-- The entity loop of `app.py`'s `_update_graph` (no config lookup, no
validation of the entity type). -/
def applyEntitiesApp (st : AnalyzerState) : List Entity → AnalyzerState
  | [] => st
  | e :: rest =>
      applyEntitiesApp
        { st with
          graph := st.graph.addNode e.id (appNodeAttrs e),
          entities := dictSet st.entities e.id e }
        rest

/-- The relationship loop of `app.py`'s `_update_graph` (no validation of
the relationship type or of the referenced entity ids). -/
def applyRelationshipsApp (st : AnalyzerState) :
    List Relationship → AnalyzerState
  | [] => st
  | r :: rest =>
      applyRelationshipsApp
        { st with
          graph := st.graph.addEdge r.source r.target (appEdgeAttrs r),
          relationships := st.relationships ++ [r] }
        rest

/-- `app.py`'s `CorruptionNetworkAnalyzer._update_graph`: entity upserts in
batch order, then all edges; it cannot raise. -/
def updateGraphApp (st : AnalyzerState) (batch : Batch) : AnalyzerState :=
  applyRelationshipsApp (applyEntitiesApp st batch.entities)
    batch.relationships

/-- Walking tree-parent pointers when a non-tree edge closes a cycle
(`p = pred[z]; while p not in pn: cycle.append(p); p = pred[p];
cycle.append(p)`).  `fuel` dominates the walk length; on an actual run of
the algorithm the walk reaches a node of `pn` within `pred.length` steps. -/
def predWalk (pred : List (String × String)) (pn : List String) :
    Nat → String → List String
  | 0, p => [p]
  | fuel + 1, p =>
      if p ∈ pn then [p] else p :: predWalk pred pn fuel ((dictGet pred p).getD p)

/-- The traversal state of one spanning-tree walk inside `nx.cycle_basis`:
`stack` holds the DFS stack with its top at the head (Python appends and
pops at the end of the list), `pred` the tree-parent dict, `used` the
per-node sets of already-used neighbours, `cycles` the cycles found so far. -/
structure PatonState where
  stack : List String
  pred : List (String × String)
  used : List (String × List String)
  cycles : List (List String)
deriving DecidableEq, Repr

/-- The body of `for nbr in G[z]` in `nx.cycle_basis`: a fresh neighbour is
put on the stack with `pred[nbr] = z` and `used[nbr] = {z}`; a self-loop
contributes the cycle `[z]`; a used neighbour not yet marked for `z` closes
a fundamental cycle `[nbr, z] ++ walk`; anything else is skipped. -/
def processNbr (fuel : Nat) (z : String) (s : PatonState) (nbr : String) :
    PatonState :=
  match dictGet s.used nbr with
  | none =>
      { s with
        pred := dictSet s.pred nbr z,
        stack := nbr :: s.stack,
        used := dictSet s.used nbr [z] }
  | some pn =>
      if nbr = z then { s with cycles := s.cycles ++ [[z]] }
      else if nbr ∈ (dictGet s.used z).getD [] then s
      else
        let cycle :=
          [nbr, z] ++ predWalk s.pred pn fuel ((dictGet s.pred z).getD z)
        { s with
          cycles := s.cycles ++ [cycle],
          used := dictSet s.used nbr (if z ∈ pn then pn else pn ++ [z]) }

/-- The `while stack:` loop of `nx.cycle_basis`: pop `z`, fold the neighbour
body over `G[z]` in adjacency insertion order.  Each node is pushed at most
once (a push is guarded by `nbr not in used`), so `fuel` larger than the
node count makes the fuel bound unreachable. -/
def componentLoop (adj : List (String × List (String × AttrMap))) :
    Nat → PatonState → PatonState
  | 0, s => s
  | fuel + 1, s =>
      match s.stack with
      | [] => s
      | z :: rest =>
          let nbrs := ((dictGet adj z).getD []).map Prod.fst
          componentLoop adj fuel
            (nbrs.foldl (processNbr fuel z) { s with stack := rest })

/-- The outer `while gnodes:` loop of `nx.cycle_basis`: pick the last
remaining node as root (`dict.popitem`), run the spanning-tree walk of its
component, remove the reached nodes (`pred` keys) from `gnodes`, and repeat.
Every round removes at least the root, so `fuel` larger than the node count
makes the fuel bound unreachable. -/
def cycleBasisLoop (adj : List (String × List (String × AttrMap)))
    (fuelC : Nat) :
    Nat → List String → List (List String) → List (List String)
  | 0, _, acc => acc
  | fuel + 1, gnodes, acc =>
      match gnodes.getLast? with
      | none => acc
      | some root =>
          let s := componentLoop adj fuelC
            ⟨[root], [(root, root)], [(root, [])], []⟩
          cycleBasisLoop adj fuelC fuel
            (gnodes.filter (fun n => (dictGet s.pred n).isNone))
            (acc ++ s.cycles)

/-- `nx.cycle_basis(G)`: Paton's fundamental-cycle-basis algorithm exactly
as implemented by networkx (spanning-forest walk; every non-tree edge closes
one cycle reported as `[nbr, z, parents…]`). -/
def cycleBasis (g : Graph) : List (List String) :=
  let fuel := g.nodeAttrs.length + 1
  cycleBasisLoop g.adj fuel fuel g.nodeList []

/-- `[self.entities[node]['type'] for node in cycle]`: the entity types of a
cycle's members; raises `KeyError` at the first member missing from the
entity dict. -/
def cycleTypes (entities : List (String × Entity)) :
    List String → Except PyErr (List String)
  | [] => .ok []
  | n :: rest =>
      match dictGetItem entities n with
      | .error e => .error e
      | .ok ent =>
          match cycleTypes entities rest with
          | .error e => .error e
          | .ok ts => .ok (ent.type :: ts)

/-- The description string of a `ciclo_sospechoso` finding. -/
def cicloDesc : String := "Ciclo cerrado entre funcionarios y empresas"

/-- The description string of a `concentracion_contratos` finding. -/
def concDesc : String := "Concentración anormal de contratos"

/-- A detector finding as appended to `suspicious_patterns` in `main.py`
(`type`, then the varying fields, then `risk_level` and `description`). -/
inductive Finding where
  | cicloSospechoso (nodes : List String) (riskLevel : String)
      (description : String)
  | concentracionContratos (node : String) (degree : Nat) (riskLevel : String)
      (description : String)
deriving DecidableEq, Repr

/-- The findings contributed by one cycle: nothing unless
`len(cycle) >= min_cycle_length`; otherwise compute the member types and
emit one `ciclo_sospechoso` finding exactly when both `'funcionario'` and
`'empresa'` occur among them. -/
def cycleFinding (entities : List (String × Entity)) (c : List String) :
    Except PyErr (List Finding) :=
  if min_cycle_length ≤ c.length then
    match cycleTypes entities c with
    | .error e => .error e
    | .ok ts =>
        .ok (if "funcionario" ∈ ts ∧ "empresa" ∈ ts then
            [.cicloSospechoso c "high" cicloDesc]
          else [])
  else .ok []

/-- The `for cycle in cycles:` loop: findings in cycle-discovery order. -/
def cycleFindingsLoop (entities : List (String × Entity)) :
    List (List String) → Except PyErr (List Finding)
  | [] => .ok []
  | c :: rest =>
      match cycleFinding entities c with
      | .error e => .error e
      | .ok fs =>
          match cycleFindingsLoop entities rest with
          | .error e => .error e
          | .ok more => .ok (fs ++ more)

/-- The dict comprehension
`{node: degree for node, degree in self.graph.degree()
  if self.entities[node]['type'] == 'empresa'}`:
iterate all graph nodes in insertion order, look every node up in the
entity dict (raising `KeyError` on a miss), and keep the `empresa` ones
with their degrees. -/
def empresaDegreesOf (g : Graph) (entities : List (String × Entity)) :
    List String → Except PyErr (List (String × Nat))
  | [] => .ok []
  | n :: rest =>
      match dictGetItem entities n with
      | .error e => .error e
      | .ok ent =>
          match empresaDegreesOf g entities rest with
          | .error e => .error e
          | .ok tail =>
              .ok (if ent.type = "empresa" then (n, g.degree n) :: tail
                else tail)

/-- `empresa_degrees` as computed by `detect_suspicious_patterns`. -/
def empresaDegrees (st : AnalyzerState) : Except PyErr (List (String × Nat)) :=
  empresaDegreesOf st.graph st.entities st.graph.nodeList

/-- The comparison `degree > mean_degree + max_degree_std * std_degree`
where `std_degree = var ** 0.5`, carried out exactly over `ℚ`: for
`0 ≤ var` and `0 ≤ k`, `mean + k * sqrt var < d` iff `mean < d` and
`k² · var < (d − mean)²` (`degreeExceeds_iff_sqrt` below proves this
equivalence against the `Real.sqrt` formulation). -/
def degreeExceeds (d mean var k : ℚ) : Bool :=
  decide (mean < d) && decide (k ^ 2 * var < (d - mean) ^ 2)

/-- `mean_degree`: the population mean of the company degrees. -/
def concMean (eds : List (String × Nat)) : ℚ :=
  (eds.map (fun p => (p.2 : ℚ))).sum / eds.length

/-- `std_degree ** 2`: the population variance of the company degrees
(`std_degree` itself is its square root; see `degreeExceeds`). -/
def concVar (eds : List (String × Nat)) : ℚ :=
  (eds.map (fun p => ((p.2 : ℚ) - concMean eds) ^ 2)).sum / eds.length

/-- The `if empresa_degrees:` block: population mean and variance of the
company degrees, then one `concentracion_contratos` finding for every
company whose degree strictly exceeds `mean + max_degree_std * std`. -/
def concFindings (eds : List (String × Nat)) : List Finding :=
  if eds = [] then []
  else
    eds.filterMap (fun p =>
      if degreeExceeds (p.2 : ℚ) (concMean eds) (concVar eds)
          max_degree_std then
        some (.concentracionContratos p.1 p.2 "high" concDesc)
      else none)

/-- The body of `detect_suspicious_patterns` up to the `except` clause:
cycle findings first, then the degree-concentration findings, with any
`KeyError` from an entity lookup propagating out of the body. -/
def detectCore (g : Graph) (entities : List (String × Entity)) :
    Except PyErr (List Finding) :=
  match cycleFindingsLoop entities (cycleBasis g) with
  | .error e => .error e
  | .ok cycleFs =>
      match empresaDegreesOf g entities g.nodeList with
      | .error e => .error e
      | .ok eds => .ok (cycleFs ++ concFindings eds)

/-- `main.py`'s `CorruptionNetworkAnalyzer.detect_suspicious_patterns`:
the detector body wrapped in `try/except`, returning `[]` when the body
raises.  It reads only `self.graph` and `self.entities`. -/
def detect_suspicious_patterns (st : AnalyzerState) : List Finding :=
  match detectCore st.graph st.entities with
  | .ok fs => fs
  | .error _ => []

/-- An entity fact with no extra attributes, used to build test states. -/
def plainEntity (i t : String) : Entity := ⟨i, i, t, []⟩

/-- A `comercial` relationship fact with no extra attributes. -/
def plainRel (s t : String) : Relationship := ⟨s, t, "comercial", []⟩

/-- `get_entity_config` raises `KeyError('otro')` on every input: the
eagerly evaluated default `ENTITY_TYPES["otro"]` misses. -/
theorem get_entity_config_error (t : String) :
    get_entity_config t = .error (.keyError "otro") := rfl

/-- `get_relationship_config` raises `KeyError('otro')` on every input. -/
theorem get_relationship_config_error (t : String) :
    get_relationship_config t = .error (.keyError "otro") := rfl

/-- C1: a batch containing an entity whose type is outside the recognized
entity-type vocabulary makes `_update_graph` raise (the raised exception is
`KeyError('otro')` from `Config.get_entity_config`, the only rejection
signal the code has) and leaves the analyzer state — graph node set, edge
set, all attributes, and the entity mapping — exactly as it was: the
exception fires before the first `add_node` call of the batch. -/
theorem unknown_entity_type_rejected_without_mutation
    (st : AnalyzerState) (batch : Batch)
    (h : ∃ e ∈ batch.entities, dictGet ENTITY_TYPES e.type = none) :
    updateGraph st batch = (st, some (.keyError "otro")) := by
  obtain ⟨e, he, -⟩ := h
  rcases batch with ⟨ents, rels⟩
  cases ents with
  | nil => simp at he
  | cons e0 rest =>
      simp [updateGraph, applyEntitiesMain, get_entity_config_error]

/-- Witness for C1: a concrete batch holding one entity of the unrecognized
type `"partido"` is rejected with no mutation of the empty analyzer. -/
theorem unknown_entity_type_rejected_without_mutation_witness :
    updateGraph initialState ⟨[plainEntity "P1" "partido"], []⟩ =
      (initialState, some (.keyError "otro")) :=
  unknown_entity_type_rejected_without_mutation initialState
    ⟨[plainEntity "P1" "partido"], []⟩
    ⟨plainEntity "P1" "partido", by decide⟩

/-- C2: a batch containing a relationship whose source or target id resolves
to no entity (absent from the existing graph and not created by the batch's
entities) makes `_update_graph` raise and mutate nothing, so in particular
no node is ever silently created for the unknown id: the exception —
`KeyError('otro')`, raised by the config lookup of the first entity of the
batch, or of the first relationship when the batch has no entities — fires
before any `add_edge` call can run. -/
theorem dangling_reference_rejected_without_mutation
    (st : AnalyzerState) (batch : Batch)
    (h : ∃ r ∈ batch.relationships,
        (dictGet st.graph.nodeAttrs r.source = none ∧
          ∀ e ∈ batch.entities, e.id ≠ r.source) ∨
        (dictGet st.graph.nodeAttrs r.target = none ∧
          ∀ e ∈ batch.entities, e.id ≠ r.target)) :
    updateGraph st batch = (st, some (.keyError "otro")) := by
  obtain ⟨r, hr, -⟩ := h
  rcases batch with ⟨ents, rels⟩
  cases ents with
  | cons e0 rest =>
      simp [updateGraph, applyEntitiesMain, get_entity_config_error]
  | nil =>
      cases rels with
      | nil => simp at hr
      | cons r0 rest =>
          simp [updateGraph, applyEntitiesMain, applyRelationshipsMain,
            get_relationship_config_error]

/-- Witness for C2: a relationship referencing the id `"B"`, which is
neither a graph node nor created by the (empty) entity list, is rejected
with no mutation. -/
theorem dangling_reference_rejected_without_mutation_witness :
    updateGraph initialState ⟨[], [plainRel "A" "B"]⟩ =
      (initialState, some (.keyError "otro")) :=
  dangling_reference_rejected_without_mutation initialState
    ⟨[], [plainRel "A" "B"]⟩ ⟨plainRel "A" "B", by decide⟩

/-- Soundness of the `ℚ`-level threshold test: for nonnegative variance and
multiplier, `degreeExceeds d mean var k` is exactly the source comparison
`d > mean + k * var ** 0.5` read over the reals. -/
theorem degreeExceeds_iff_sqrt (d mean var k : ℚ) (hv : 0 ≤ var)
    (hk : 0 ≤ k) :
    degreeExceeds d mean var k = true ↔
      (mean : ℝ) + (k : ℝ) * Real.sqrt (var : ℝ) < (d : ℝ) := by
  unfold degreeExceeds
  rw [Bool.and_eq_true, decide_eq_true_eq, decide_eq_true_eq]
  have hv' : (0 : ℝ) ≤ ((var : ℚ) : ℝ) := by exact_mod_cast hv
  have hk' : (0 : ℝ) ≤ ((k : ℚ) : ℝ) := by exact_mod_cast hk
  have hs : (0 : ℝ) ≤ Real.sqrt (var : ℝ) := Real.sqrt_nonneg _
  have hsq : Real.sqrt ((var : ℚ) : ℝ) ^ 2 = ((var : ℚ) : ℝ) :=
    Real.sq_sqrt hv'
  constructor
  · rintro ⟨h1, h2⟩
    have h1' : ((mean : ℚ) : ℝ) < ((d : ℚ) : ℝ) := by exact_mod_cast h1
    have h2' : ((k : ℚ) : ℝ) ^ 2 * ((var : ℚ) : ℝ) <
        (((d : ℚ) : ℝ) - ((mean : ℚ) : ℝ)) ^ 2 := by exact_mod_cast h2
    nlinarith [mul_nonneg hk' hs, hsq, h2', h1',
      sq_nonneg (((d : ℚ) : ℝ) - mean + k * Real.sqrt (var : ℝ))]
  · intro hlt
    have h1' : ((mean : ℚ) : ℝ) < ((d : ℚ) : ℝ) := by
      nlinarith [mul_nonneg hk' hs]
    have h2' : ((k : ℚ) : ℝ) ^ 2 * ((var : ℚ) : ℝ) <
        (((d : ℚ) : ℝ) - ((mean : ℚ) : ℝ)) ^ 2 := by
      nlinarith [mul_nonneg hk' hs, hsq]
    constructor
    · exact_mod_cast h1'
    · exact_mod_cast h2'

/-- Unfolding of the detector when neither phase raises. -/
theorem detect_eq (st : AnalyzerState) (cfs : List Finding)
    (eds : List (String × Nat))
    (h1 : cycleFindingsLoop st.entities (cycleBasis st.graph) = .ok cfs)
    (h2 : empresaDegreesOf st.graph st.entities st.graph.nodeList = .ok eds) :
    detect_suspicious_patterns st = cfs ++ concFindings eds := by
  unfold detect_suspicious_patterns detectCore
  rw [h1, h2]

/-- Mapping a function that is constant on a list sums to length times the
constant. -/
theorem sum_map_const {α : Type} (l : List α) (f : α → ℚ) (d0 : ℚ)
    (h : ∀ p ∈ l, f p = d0) : (l.map f).sum = l.length * d0 := by
  induction l with
  | nil => simp
  | cons x xs ih =>
      simp only [List.map_cons, List.sum_cons, List.length_cons,
        h x (List.mem_cons_self x xs),
        ih (fun p hp => h p (List.mem_cons_of_mem x hp))]
      push_cast
      ring

/-- When every company has the same degree, the population mean is that
degree. -/
theorem concMean_const (eds : List (String × Nat)) (d0 : Nat)
    (hne : eds ≠ []) (h : ∀ p ∈ eds, p.2 = d0) :
    concMean eds = (d0 : ℚ) := by
  unfold concMean
  rw [sum_map_const eds _ (d0 : ℚ) (fun p hp => by rw [h p hp])]
  have hlen : (eds.length : ℚ) ≠ 0 := by
    simpa using fun h0 => hne (List.length_eq_zero.mp h0)
  field_simp

/-- A degree equal to the mean never strictly exceeds
`mean + max_degree_std * std`. -/
theorem degreeExceeds_self_false (d var k : ℚ) :
    degreeExceeds d d var k = false := by
  simp [degreeExceeds]

/-- Uniform degrees produce no `concentracion_contratos` finding: with all
company degrees equal, the mean equals the common degree and the strict
comparison `degree > threshold` fails at every company. -/
theorem concFindings_const (eds : List (String × Nat)) (d0 : Nat)
    (h : ∀ p ∈ eds, p.2 = d0) : concFindings eds = [] := by
  rcases heds : eds with - | ⟨x, xs⟩
  · rfl
  · subst heds
    unfold concFindings
    rw [if_neg (by simp)]
    refine List.filterMap_eq_nil_iff.mpr (fun p hp => ?_)
    rw [h p hp, concMean_const (x :: xs) d0 (by simp) h,
      degreeExceeds_self_false]
    rfl

/-- The 3-node state of C6: officials `A`, `C` and company `B` with the
triangle `A—B`, `B—C`, `C—A`, built by the working ingestion path. -/
def triangleMixedState : AnalyzerState :=
  updateGraphApp initialState
    ⟨[plainEntity "A" "funcionario", plainEntity "B" "empresa",
      plainEntity "C" "funcionario"],
     [plainRel "A" "B", plainRel "B" "C", plainRel "C" "A"]⟩

/-- The 3-node state of C7: the same triangle with all three nodes of type
`funcionario`. -/
def triangleOfficialState : AnalyzerState :=
  updateGraphApp initialState
    ⟨[plainEntity "A" "funcionario", plainEntity "B" "funcionario",
      plainEntity "C" "funcionario"],
     [plainRel "A" "B", plainRel "B" "C", plainRel "C" "A"]⟩

/-- The state of C3: five companies of degrees 1, 1, 1, 1, 10 — `E1`…`E4`
each contract with official `F0`, while `E5` contracts with the ten
officials `G1`…`G10`. -/
def starDegreesState : AnalyzerState :=
  updateGraphApp initialState
    ⟨[plainEntity "E1" "empresa", plainEntity "E2" "empresa",
      plainEntity "E3" "empresa", plainEntity "E4" "empresa",
      plainEntity "E5" "empresa", plainEntity "F0" "funcionario",
      plainEntity "G1" "funcionario", plainEntity "G2" "funcionario",
      plainEntity "G3" "funcionario", plainEntity "G4" "funcionario",
      plainEntity "G5" "funcionario", plainEntity "G6" "funcionario",
      plainEntity "G7" "funcionario", plainEntity "G8" "funcionario",
      plainEntity "G9" "funcionario", plainEntity "G10" "funcionario"],
     [plainRel "E1" "F0", plainRel "E2" "F0", plainRel "E3" "F0",
      plainRel "E4" "F0", plainRel "E5" "G1", plainRel "E5" "G2",
      plainRel "E5" "G3", plainRel "E5" "G4", plainRel "E5" "G5",
      plainRel "E5" "G6", plainRel "E5" "G7", plainRel "E5" "G8",
      plainRel "E5" "G9", plainRel "E5" "G10"]⟩

/-- A disconnected state for C9: one edge `A—B`, an isolated official `C`
and an isolated company `D`. -/
def disconnectedState : AnalyzerState :=
  updateGraphApp initialState
    ⟨[plainEntity "A" "funcionario", plainEntity "B" "funcionario",
      plainEntity "C" "funcionario", plainEntity "D" "empresa"],
     [plainRel "A" "B"]⟩

/-- A state whose three companies all have degree 1 (the spec's
uniform-degree example [5,5,5] up to the common value), for C8's witness. -/
def uniformDegreesState : AnalyzerState :=
  updateGraphApp initialState
    ⟨[plainEntity "E1" "empresa", plainEntity "E2" "empresa",
      plainEntity "E3" "empresa", plainEntity "F1" "funcionario"],
     [plainRel "E1" "F1", plainRel "E2" "F1", plainRel "E3" "F1"]⟩

set_option maxRecDepth 100000 in
/-- The strict threshold comparison fails when the degree does not exceed
the mean. -/
theorem degreeExceeds_false_of_le (d m v k : ℚ) (h : d ≤ m) :
    degreeExceeds d m v k = false := by
  simp [degreeExceeds, not_lt.mpr h]

/-- The strict threshold comparison fails when the squared deviation does
not exceed `k² · var`. -/
theorem degreeExceeds_false_of_sq_le (d m v k : ℚ)
    (h : (d - m) ^ 2 ≤ k ^ 2 * v) : degreeExceeds d m v k = false := by
  simp [degreeExceeds, not_lt.mpr h]

set_option maxRecDepth 100000 in
/-- Full evaluation of the detector on the degrees-[1,1,1,1,10] state:
the star graphs contain no cycle, the company degrees are [1,1,1,1,10]
with mean 14/5 and population variance 324/25, and no degree passes the
strict comparison against μ + 2σ = 10, so the detector returns nothing. -/
theorem starDegrees_detect_nil :
    detect_suspicious_patterns starDegreesState = [] := by
  have hmean :
      concMean [("E1", 1), ("E2", 1), ("E3", 1), ("E4", 1), ("E5", 10)] =
        14/5 := by
    norm_num [concMean]
  have hvar :
      concVar [("E1", 1), ("E2", 1), ("E3", 1), ("E4", 1), ("E5", 10)] =
        324/25 := by
    norm_num [concVar, hmean]
  rw [detect_eq starDegreesState []
      [("E1", 1), ("E2", 1), ("E3", 1), ("E4", 1), ("E5", 10)] rfl rfl,
    List.nil_append]
  unfold concFindings
  rw [if_neg (by simp)]
  refine List.filterMap_eq_nil_iff.mpr (fun p hp => ?_)
  simp only [List.mem_cons, List.not_mem_nil, or_false] at hp
  rcases hp with rfl | rfl | rfl | rfl | rfl
  · simp only [hmean, hvar, max_degree_std]
    rw [degreeExceeds_false_of_le _ _ _ _ (by norm_num)]
    rfl
  · simp only [hmean, hvar, max_degree_std]
    rw [degreeExceeds_false_of_le _ _ _ _ (by norm_num)]
    rfl
  · simp only [hmean, hvar, max_degree_std]
    rw [degreeExceeds_false_of_le _ _ _ _ (by norm_num)]
    rfl
  · simp only [hmean, hvar, max_degree_std]
    rw [degreeExceeds_false_of_le _ _ _ _ (by norm_num)]
    rfl
  · simp only [hmean, hvar, max_degree_std]
    rw [degreeExceeds_false_of_sq_le _ _ _ _ (by norm_num)]
    rfl

/-- C6: on the official–company–official triangle, the detector returns
exactly one `ciclo_sospechoso` finding, whose node list (the cycle as
discovered by `nx.cycle_basis`, here `[B, A, C]`) contains all three
nodes, and nothing else. -/
theorem triangle_mixed_one_cycle_finding :
    detect_suspicious_patterns triangleMixedState =
      [.cicloSospechoso ["B", "A", "C"] "high" cicloDesc] ∧
    ("A" ∈ ["B", "A", "C"] ∧ "B" ∈ ["B", "A", "C"] ∧
      "C" ∈ ["B", "A", "C"]) := by
  refine ⟨?_, by decide⟩
  rw [detect_eq triangleMixedState
      [.cicloSospechoso ["B", "A", "C"] "high" cicloDesc] [("B", 2)] rfl rfl,
    concFindings_const [("B", 2)] 2 (by decide), List.append_nil]

set_option maxRecDepth 100000 in
/-- C3 counterexample: on the degrees-[1,1,1,1,10] state the detector flags
nobody — in particular it does not emit the finding the claim promises for
the degree-10 company `E5`. -/
theorem star_degrees_no_concentration_finding :
    Finding.concentracionContratos "E5" 10 "high" concDesc ∉
      detect_suspicious_patterns starDegreesState := by
  intro h
  rw [starDegrees_detect_nil] at h
  simp at h

set_option maxRecDepth 100000 in
/-- C3 amended: the company degrees of the state really are
[1, 1, 1, 1, 10], the threshold computation puts the cutoff exactly at
μ + 2σ = 2.8 + 2·3.6 = 10, the strict comparison `degree > threshold`
therefore rejects degree 10 (`degreeExceeds` of 10 against mean 14/5 and
variance 324/25 is `false`), and the detector consequently returns no
finding at all. -/
theorem star_degrees_amended :
    empresaDegrees starDegreesState =
      .ok [("E1", 1), ("E2", 1), ("E3", 1), ("E4", 1), ("E5", 10)] ∧
    degreeExceeds 10 (14/5) (324/25) 2 = false ∧
    detect_suspicious_patterns starDegreesState = [] := by
  refine ⟨rfl, degreeExceeds_false_of_sq_le 10 (14/5) (324/25) 2 (by norm_num),
    starDegrees_detect_nil⟩

set_option maxRecDepth 100000 in
/-- C9: the detector returns the empty finding list, with the detector body
completing without an exception, both on the freshly constructed analyzer
state and on a disconnected 4-node state; the `try/except` wrapper in
`detect_suspicious_patterns` additionally converts any exception of the
body into `[]`, so the call never raises. -/
theorem scan_empty_and_disconnected_safe :
    detect_suspicious_patterns initialState = [] ∧
    detectCore initialState.graph initialState.entities = .ok [] ∧
    detect_suspicious_patterns disconnectedState = [] ∧
    detectCore disconnectedState.graph disconnectedState.entities =
      .ok [] := by
  have hdisc : detectCore disconnectedState.graph disconnectedState.entities =
      .ok ([] ++ concFindings [("D", 0)]) := by
    unfold detectCore
    rw [show cycleFindingsLoop disconnectedState.entities
        (cycleBasis disconnectedState.graph) = .ok [] from rfl,
      show empresaDegreesOf disconnectedState.graph disconnectedState.entities
        disconnectedState.graph.nodeList = .ok [("D", 0)] from rfl]
  have hnil : concFindings [("D", 0)] = [] := concFindings_const _ 0 (by decide)
  rw [hnil] at hdisc
  refine ⟨rfl, rfl, ?_, hdisc⟩
  unfold detect_suspicious_patterns
  rw [hdisc]
  rfl

/-- C10: the detector is a deterministic function of the graph and the
entity mapping alone — two analyzer states agreeing on `graph` and
`entities` (whatever their `relationships` logs) produce identical finding
lists, in the same order. -/
theorem detect_deterministic (st1 st2 : AnalyzerState)
    (hg : st1.graph = st2.graph) (he : st1.entities = st2.entities) :
    detect_suspicious_patterns st1 = detect_suspicious_patterns st2 := by
  unfold detect_suspicious_patterns
  rw [hg, he]

/-- Witness for C10: two states sharing graph and entity mapping but with
different relationship logs yield the same findings. -/
theorem detect_deterministic_witness :
    detect_suspicious_patterns triangleMixedState =
      detect_suspicious_patterns
        { triangleMixedState with relationships := [] } :=
  detect_deterministic triangleMixedState
    { triangleMixedState with relationships := [] } rfl rfl

/-- One cycle contributes no `concentracion_contratos` finding: the cycle
phase only ever appends `ciclo_sospechoso` findings. -/
theorem cycleFinding_no_conc (entities : List (String × Entity))
    (c : List String) (fs1 : List Finding)
    (h : cycleFinding entities c = .ok fs1)
    (nd : String) (dg : Nat) (rl ds : String) :
    Finding.concentracionContratos nd dg rl ds ∉ fs1 := by
  unfold cycleFinding at h
  by_cases hlen : min_cycle_length ≤ c.length
  · rw [if_pos hlen] at h
    cases hct : cycleTypes entities c with
    | error e => rw [hct] at h; simp at h
    | ok ts =>
        rw [hct] at h
        injection h with h
        subst h
        by_cases hty : "funcionario" ∈ ts ∧ "empresa" ∈ ts
        · rw [if_pos hty]; simp
        · rw [if_neg hty]; simp
  · rw [if_neg hlen] at h
    injection h with h
    subst h
    simp

/-- A `ciclo_sospechoso` finding contributed by one cycle certifies that
both an official and a company occur among the cycle's entity types. -/
theorem cycleFinding_mem_ciclo (entities : List (String × Entity))
    (c : List String) (fs1 : List Finding)
    (h : cycleFinding entities c = .ok fs1)
    (nodes : List String) (rl ds : String)
    (hm : Finding.cicloSospechoso nodes rl ds ∈ fs1) :
    ∃ ts, cycleTypes entities nodes = .ok ts ∧
      "funcionario" ∈ ts ∧ "empresa" ∈ ts := by
  unfold cycleFinding at h
  by_cases hlen : min_cycle_length ≤ c.length
  · rw [if_pos hlen] at h
    cases hct : cycleTypes entities c with
    | error e => rw [hct] at h; simp at h
    | ok ts =>
        rw [hct] at h
        injection h with h
        subst h
        by_cases hty : "funcionario" ∈ ts ∧ "empresa" ∈ ts
        · rw [if_pos hty] at hm
          simp only [List.mem_singleton, Finding.cicloSospechoso.injEq] at hm
          obtain ⟨h1, -, -⟩ := hm
          subst h1
          exact ⟨ts, hct, hty.1, hty.2⟩
        · rw [if_neg hty] at hm; simp at hm
  · rw [if_neg hlen] at h
    injection h with h
    subst h
    simp at hm

/-- The whole cycle phase contributes no `concentracion_contratos`
finding. -/
theorem cycleFindingsLoop_no_conc (entities : List (String × Entity))
    (cycles : List (List String)) (fs : List Finding)
    (h : cycleFindingsLoop entities cycles = .ok fs)
    (nd : String) (dg : Nat) (rl ds : String) :
    Finding.concentracionContratos nd dg rl ds ∉ fs := by
  induction cycles generalizing fs with
  | nil =>
      unfold cycleFindingsLoop at h
      injection h with h
      subst h
      simp
  | cons c rest ih =>
      unfold cycleFindingsLoop at h
      cases hcf : cycleFinding entities c with
      | error e => rw [hcf] at h; simp at h
      | ok fs1 =>
          rw [hcf] at h
          cases hrec : cycleFindingsLoop entities rest with
          | error e => rw [hrec] at h; simp at h
          | ok more =>
              rw [hrec] at h
              injection h with h
              subst h
              intro hm
              rcases List.mem_append.1 hm with hm1 | hm2
              · exact cycleFinding_no_conc entities c fs1 hcf nd dg rl ds hm1
              · exact ih more hrec hm2

/-- Any `ciclo_sospechoso` finding of the cycle phase certifies the type
condition for its node list. -/
theorem cycleFindingsLoop_mem_ciclo (entities : List (String × Entity))
    (cycles : List (List String)) (fs : List Finding)
    (h : cycleFindingsLoop entities cycles = .ok fs)
    (nodes : List String) (rl ds : String)
    (hm : Finding.cicloSospechoso nodes rl ds ∈ fs) :
    ∃ ts, cycleTypes entities nodes = .ok ts ∧
      "funcionario" ∈ ts ∧ "empresa" ∈ ts := by
  induction cycles generalizing fs with
  | nil =>
      unfold cycleFindingsLoop at h
      injection h with h
      subst h
      simp at hm
  | cons c rest ih =>
      unfold cycleFindingsLoop at h
      cases hcf : cycleFinding entities c with
      | error e => rw [hcf] at h; simp at h
      | ok fs1 =>
          rw [hcf] at h
          cases hrec : cycleFindingsLoop entities rest with
          | error e => rw [hrec] at h; simp at h
          | ok more =>
              rw [hrec] at h
              injection h with h
              subst h
              rcases List.mem_append.1 hm with hm1 | hm2
              · exact cycleFinding_mem_ciclo entities c fs1 hcf nodes rl ds hm1
              · exact ih more hrec hm2

/-- The degree-concentration phase contributes no `ciclo_sospechoso`
finding. -/
theorem concFindings_no_ciclo (eds : List (String × Nat))
    (nodes : List String) (rl ds : String) :
    Finding.cicloSospechoso nodes rl ds ∉ concFindings eds := by
  intro hm
  unfold concFindings at hm
  by_cases he : eds = []
  · rw [if_pos he] at hm; simp at hm
  · rw [if_neg he] at hm
    rw [List.mem_filterMap] at hm
    obtain ⟨p, -, hp⟩ := hm
    by_cases hd : degreeExceeds (p.2 : ℚ) (concMean eds) (concVar eds)
        max_degree_std
    · rw [if_pos hd] at hp; simp at hp
    · rw [if_neg hd] at hp; simp at hp

/-- C7: the cycle detector is type-gated — a finding is only ever emitted
for a node list whose entity types include both `funcionario` (official)
and `empresa` (contractor company), so any cycle (whatever its length)
whose member-type set lacks one of the two is never reported; and on the
concrete all-official triangle the detector returns no finding at all. -/
theorem cycle_without_both_types_not_reported :
    (∀ (st : AnalyzerState) (nodes : List String) (rl ds : String),
        (∀ ts, cycleTypes st.entities nodes = .ok ts →
            ¬("funcionario" ∈ ts ∧ "empresa" ∈ ts)) →
        Finding.cicloSospechoso nodes rl ds ∉
          detect_suspicious_patterns st) ∧
    detect_suspicious_patterns triangleOfficialState = [] := by
  constructor
  · intro st nodes rl ds hty hm
    unfold detect_suspicious_patterns at hm
    cases hc : detectCore st.graph st.entities with
    | error e => rw [hc] at hm; simp at hm
    | ok fs =>
        rw [hc] at hm
        unfold detectCore at hc
        cases h1 : cycleFindingsLoop st.entities (cycleBasis st.graph) with
        | error e => rw [h1] at hc; simp at hc
        | ok cfs =>
            rw [h1] at hc
            cases h2 : empresaDegreesOf st.graph st.entities
                st.graph.nodeList with
            | error e => rw [h2] at hc; simp at hc
            | ok eds =>
                rw [h2] at hc
                injection hc with hc
                subst hc
                rcases List.mem_append.1 hm with hm1 | hm2
                · obtain ⟨ts, hct, hf, he⟩ :=
                    cycleFindingsLoop_mem_ciclo st.entities
                      (cycleBasis st.graph) cfs h1 nodes rl ds hm1
                  exact hty ts hct ⟨hf, he⟩
                · exact concFindings_no_ciclo eds nodes rl ds hm2
  · rw [detect_eq triangleOfficialState [] [] rfl rfl]
    rfl

set_option maxRecDepth 100000 in
/-- Witness for C7: the triangle cycle `[B, A, C]` of the all-official
state (whose types are [funcionario, funcionario, funcionario]) is not
reported. -/
theorem cycle_without_both_types_not_reported_witness :
    Finding.cicloSospechoso ["B", "A", "C"] "high" cicloDesc ∉
      detect_suspicious_patterns triangleOfficialState :=
  cycle_without_both_types_not_reported.1 triangleOfficialState
    ["B", "A", "C"] "high" cicloDesc (by
      intro ts hts
      rw [show cycleTypes triangleOfficialState.entities ["B", "A", "C"] =
          .ok ["funcionario", "funcionario", "funcionario"] from rfl] at hts
      injection hts with h
      subst h
      decide)

/-- C8: when every company has the same degree (population standard
deviation zero), and likewise when fewer than two companies exist, the
detector emits no `concentracion_contratos` finding, whatever the absolute
degree values: the threshold collapses to the mean and the comparison is
strict. -/
theorem uniform_degrees_no_concentration (st : AnalyzerState)
    (nd : String) (dg : Nat) (rl ds : String)
    (h : ∀ l, empresaDegrees st = .ok l →
        (∀ p ∈ l, ∀ q ∈ l, p.2 = q.2) ∨ l.length < 2) :
    Finding.concentracionContratos nd dg rl ds ∉
      detect_suspicious_patterns st := by
  intro hm
  unfold detect_suspicious_patterns at hm
  cases hc : detectCore st.graph st.entities with
  | error e => rw [hc] at hm; simp at hm
  | ok fs =>
      rw [hc] at hm
      unfold detectCore at hc
      cases h1 : cycleFindingsLoop st.entities (cycleBasis st.graph) with
      | error e => rw [h1] at hc; simp at hc
      | ok cfs =>
          rw [h1] at hc
          cases h2 : empresaDegreesOf st.graph st.entities
              st.graph.nodeList with
          | error e => rw [h2] at hc; simp at hc
          | ok eds =>
              rw [h2] at hc
              injection hc with hc
              subst hc
              rcases List.mem_append.1 hm with hm1 | hm2
              · exact cycleFindingsLoop_no_conc st.entities
                  (cycleBasis st.graph) cfs h1 nd dg rl ds hm1
              · have heds : empresaDegrees st = .ok eds := h2
                rcases h eds heds with hall | hlen
                · cases eds with
                  | nil => simp [concFindings] at hm2
                  | cons x xs =>
                      rw [concFindings_const (x :: xs) x.2
                        (fun p hp => hall p hp x (List.mem_cons_self x xs))]
                        at hm2
                      simp at hm2
                · cases eds with
                  | nil => simp [concFindings] at hm2
                  | cons x xs =>
                      cases xs with
                      | nil =>
                          rw [concFindings_const [x] x.2 (by
                            intro p hp
                            simp only [List.mem_singleton] at hp
                            rw [hp])] at hm2
                          simp at hm2
                      | cons y ys => simp at hlen; omega

set_option maxRecDepth 100000 in
/-- Witness for C8: on the three-companies-of-equal-degree state no
company — in particular not `E1` — is reported. -/
theorem uniform_degrees_no_concentration_witness :
    Finding.concentracionContratos "E1" 1 "high" concDesc ∉
      detect_suspicious_patterns uniformDegreesState :=
  uniform_degrees_no_concentration uniformDegreesState "E1" 1 "high"
    concDesc (by
      intro l hl
      rw [show empresaDegrees uniformDegreesState =
          .ok [("E1", 1), ("E2", 1), ("E3", 1)] from rfl] at hl
      injection hl with h
      subst h
      left
      decide)

/-- Re-ingestion of an entity id through the working ingestion path
(`app.py`), first with attribute set `{a: 1}`, then with `{b: 2}`. -/
def reingestStateOf (id : String) : AnalyzerState :=
  updateGraphApp
    (updateGraphApp initialState
      ⟨[⟨id, "N", "funcionario", [("a", .s "1")]⟩], []⟩)
    ⟨[⟨id, "N", "funcionario", [("b", .s "2")]⟩], []⟩

/-- The concrete instance of `reingestStateOf` at id `"X"`. -/
def reingestState : AnalyzerState := reingestStateOf "X"

/-- C4 counterexample: after re-ingesting entity id `"X"` with the fresh
attribute set `{b: 2}`, the stored node attributes still carry the old key
`"a"` from the first ingestion — `nx.Graph.add_node` merges the attribute
dicts (`dict.update`) rather than replacing them, so the attribute set is
not last-write-wins as claimed.  (The `self.entities` mapping, by contrast,
is replaced wholesale.) -/
theorem reingest_old_attribute_survives :
    dictGet ((dictGet reingestState.graph.nodeAttrs "X").getD []) "a" =
      some (.s "1") ∧
    dictGet reingestState.entities "X" =
      some ⟨"X", "N", "funcionario", [("b", .s "2")]⟩ := ⟨rfl, rfl⟩

/-- C4 amended: for every entity id, re-ingesting the id leaves exactly one
node carrying that id (so per-type counts do not double) and replaces the
entry of the entity mapping with the new fact (last-write-wins there); but
the node's stored attribute dict is the dict-merge of old and new: keys of
the old attribute set absent from the new one survive, while `node_type`
and `name` (and any shared key) are overwritten by the new values. -/
theorem reingest_amended (id : String) :
    dictGet (reingestStateOf id).entities id =
      some ⟨id, "N", "funcionario", [("b", PyVal.s "2")]⟩ ∧
    (reingestStateOf id).graph.nodeAttrs =
      [(id, [("a", PyVal.s "1"), ("node_type", PyVal.s "funcionario"),
             ("name", PyVal.s "N"), ("b", PyVal.s "2")])] ∧
    (reingestStateOf id).entities.length = 1 := by
  simp [reingestStateOf, updateGraphApp, applyEntitiesApp,
    applyRelationshipsApp, Graph.addNode, appNodeAttrs, initialState,
    Graph.empty, dictGet, dictSet, dictUpdate]

/-- Two relationship facts between the same pair `u`, `v`, ingested through
the working ingestion path (`app.py`) after the two endpoints. -/
def doubleEdgeStateOf (u v : String) : AnalyzerState :=
  updateGraphApp initialState
    ⟨[⟨u, u, "funcionario", []⟩, ⟨v, v, "empresa", []⟩],
     [⟨u, v, "comercial", [("k", .s "1")]⟩,
      ⟨u, v, "comercial", [("k", .s "2")]⟩]⟩

/-- The concrete instance of `doubleEdgeStateOf` at the pair `"A"`, `"B"`. -/
def doubleEdgeState : AnalyzerState := doubleEdgeStateOf "A" "B"

/-- C5 counterexample: after ingesting two relationship facts between `"A"`
and `"B"`, the relationship log keeps both facts but the graph holds a
single `A—B` edge whose attributes are the merge of the two facts
(second fact winning on the shared key), and `degree("A") = 1`, not 2:
`nx.Graph` is a simple graph, so facts between the same pair are merged,
and the degree counts the pair once — contradicting the claim that each
fact is stored as a distinct edge counted separately by `degree`. -/
theorem double_edge_merged :
    doubleEdgeState.relationships.length = 2 ∧
    ((dictGet doubleEdgeState.graph.adj "A").getD []).length = 1 ∧
    doubleEdgeState.graph.degree "A" = 1 ∧
    doubleEdgeState.graph.degree "B" = 1 ∧
    dictGet ((dictGet doubleEdgeState.graph.adj "A").getD []) "B" =
      some [("k", .s "2"), ("relationship_type", .s "comercial")] :=
  ⟨rfl, rfl, rfl, rfl, rfl⟩

set_option maxHeartbeats 2000000 in
/-- C5 amended: for every pair of distinct entity ids, relationship facts
between the pair are merged into one stored edge — the relationship log
keeps each fact, but the adjacency holds a single entry for the pair, its
attribute dict is updated last-write-wins, and `degree` counts the pair
once at either endpoint. -/
theorem double_edge_amended (u v : String) (h : u ≠ v) :
    (doubleEdgeStateOf u v).relationships.length = 2 ∧
    ((dictGet (doubleEdgeStateOf u v).graph.adj u).getD []).length = 1 ∧
    (doubleEdgeStateOf u v).graph.degree u = 1 ∧
    (doubleEdgeStateOf u v).graph.degree v = 1 ∧
    dictGet ((dictGet (doubleEdgeStateOf u v).graph.adj u).getD []) v =
      some [("k", PyVal.s "2"),
        ("relationship_type", PyVal.s "comercial")] := by
  simp [doubleEdgeStateOf, updateGraphApp, applyEntitiesApp,
    applyRelationshipsApp, Graph.addNode, Graph.addEdge, Graph.degree,
    appNodeAttrs, appEdgeAttrs, initialState, Graph.empty, dictGet, dictSet,
    dictUpdate, h, Ne.symm h]

/-- Witness for the amended C5: the generic statement instantiated at the
distinct pair `"A"`, `"B"`. -/
theorem double_edge_amended_witness :
    ("A" : String) ≠ "B" ∧ (doubleEdgeStateOf "A" "B").graph.degree "A" = 1 :=
  ⟨by decide, (double_edge_amended "A" "B" (by decide)).2.2.1⟩

/-- Witness for the amended C4: the generic statement instantiated at the
id `"X"`. -/
theorem reingest_amended_witness :
    dictGet (reingestStateOf "X").entities "X" =
      some ⟨"X", "N", "funcionario", [("b", PyVal.s "2")]⟩ :=
  (reingest_amended "X").1
